import Mathlib

/-!
Shallow embedding of `src/app/main.py` (StepOne backend, FastAPI relay to the
Gemini generation API).

The repository's only handler logic lives in `plan_endpoint`:
  * read `GEMINI_API_KEY` from the process environment at call time
    (`os.getenv` inside the handler); a missing or empty key yields a fixed
    "missing key" payload and no network call;
  * otherwise build a prompt (an f-string embedding the request's `text`,
    `emotion` and `intent`), POST it to the Gemini endpoint with
    `timeout=10.0` and the key in the query string;
  * on a 2xx response, parse the body as JSON, extract
    `data["candidates"][0]["content"]["parts"][0]["text"]`, parse that text
    with `json.loads`, and return the parsed value verbatim;
  * any exception in the try block (network error/timeout, non-2xx via
    `raise_for_status`, unparsable body, missing envelope path, unparsable
    inner text) is caught by the bare `except Exception` and converted to a
    fixed fallback payload.

The embedding makes effects explicit: the environment's value of
`GEMINI_API_KEY` at call time and the outcome of the (single) outbound call
are parameters; the handler returns the JSON payload together with the
outbound call it issued, if any.  `json.loads` is modelled by an executable
JSON parser (`jsonParse`) covering the JSON subset relevant here: null,
booleans, integers, strings with the standard escapes, arrays and objects.
(Fractional/exponent number syntax and the lenient NaN/Infinity extensions of
Python's parser are not modelled; no claim depends on them.)
-/

/-- JSON values, as produced by Python's `json.loads`.  Objects keep their
key/value pairs in order; lookup takes the last binding, matching Python's
dict construction where a later duplicate key overrides an earlier one. -/
inductive Json where
  | null : Json
  | bool : Bool → Json
  | num : Int → Json
  | str : String → Json
  | arr : List Json → Json
  | obj : List (String × Json) → Json
deriving Repr

/-- The request model `PlanRequest(BaseModel)`: three required string
fields. -/
structure PlanRequest where
  text : String
  emotion : String
  intent : String
deriving Repr, DecidableEq

/-- Characters written via code points so that string/char syntax stays
plain: `{` -/
def lbraceChar : Char := Char.ofNat 123

/-- `}` -/
def rbraceChar : Char := Char.ofNat 125

/-- `"` -/
def quoteChar : Char := Char.ofNat 34

/-- `\` -/
def backslashChar : Char := Char.ofNat 92

/-- `[` -/
def lbrackChar : Char := Char.ofNat 91

/-- `]` -/
def rbrackChar : Char := Char.ofNat 93

/-- `,` -/
def commaChar : Char := Char.ofNat 44

/-- `:` -/
def colonChar : Char := Char.ofNat 58

/-- JSON insignificant whitespace: space, tab, newline, carriage return. -/
def isJsonWs (c : Char) : Bool :=
  c = ' ' || c = Char.ofNat 9 || c = Char.ofNat 10 || c = Char.ofNat 13

/-- Drop leading JSON whitespace. -/
def skipWs : List Char → List Char
  | [] => []
  | c :: cs => if isJsonWs c then skipWs cs else c :: cs

/-- Value of a hex digit, if the character is one. -/
def hexVal (c : Char) : Option Nat :=
  if '0' ≤ c ∧ c ≤ '9' then some (c.toNat - 48)
  else if 'a' ≤ c ∧ c ≤ 'f' then some (c.toNat - 87)
  else if 'A' ≤ c ∧ c ≤ 'F' then some (c.toNat - 55)
  else none

/-- Value of a decimal digit, if the character is one. -/
def digitVal (c : Char) : Option Nat :=
  if '0' ≤ c ∧ c ≤ '9' then some (c.toNat - 48) else none

/-- Body of a JSON string after the opening quote: collects characters,
decoding the standard escapes, up to the closing quote.  Returns the decoded
characters (reversed accumulator convention) and the rest of the input. -/
def parseStrBody : Nat → List Char → List Char → Option (String × List Char)
  | 0, _, _ => none
  | _ + 1, _, [] => none
  | fuel + 1, acc, c :: cs =>
    if c = quoteChar then some (String.mk acc.reverse, cs)
    else if c = backslashChar then
      match cs with
      | [] => none
      | e :: cs2 =>
        if e = quoteChar then parseStrBody fuel (quoteChar :: acc) cs2
        else if e = backslashChar then parseStrBody fuel (backslashChar :: acc) cs2
        else if e = '/' then parseStrBody fuel ('/' :: acc) cs2
        else if e = 'b' then parseStrBody fuel (Char.ofNat 8 :: acc) cs2
        else if e = 'f' then parseStrBody fuel (Char.ofNat 12 :: acc) cs2
        else if e = 'n' then parseStrBody fuel (Char.ofNat 10 :: acc) cs2
        else if e = 'r' then parseStrBody fuel (Char.ofNat 13 :: acc) cs2
        else if e = 't' then parseStrBody fuel (Char.ofNat 9 :: acc) cs2
        else if e = 'u' then
          match cs2 with
          | h1 :: h2 :: h3 :: h4 :: cs3 =>
            match hexVal h1, hexVal h2, hexVal h3, hexVal h4 with
            | some a, some b, some c2, some d =>
              parseStrBody fuel (Char.ofNat (((a * 16 + b) * 16 + c2) * 16 + d) :: acc) cs3
            | _, _, _, _ => none
          | _ => none
        else none
    else parseStrBody fuel (c :: acc) cs

/-- Greedily take a decimal-digit prefix. -/
def takeDigits : List Char → List Char × List Char
  | [] => ([], [])
  | c :: cs =>
    match digitVal c with
    | some _ => let (ds, rest) := takeDigits cs; (c :: ds, rest)
    | none => ([], c :: cs)

/-- Digits to a natural number. -/
def digitsToNat (acc : Nat) : List Char → Nat
  | [] => acc
  | c :: cs => digitsToNat (acc * 10 + (c.toNat - 48)) cs

/-- JSON number (integer form: optional minus, digits, no leading zeros as in
the JSON grammar).  Fraction/exponent syntax is not modelled. -/
def parseNum : List Char → Option (Json × List Char)
  | [] => none
  | c :: cs =>
    let (neg, body) := if c = '-' then (true, cs) else (false, c :: cs)
    match takeDigits body with
    | ([], _) => none
    | (d :: ds, rest) =>
      if d = '0' ∧ ds ≠ [] then none
      else
        let n : Int := Int.ofNat (digitsToNat 0 (d :: ds))
        some (Json.num (if neg then -n else n), rest)

mutual

/-- One JSON value, preceded by optional whitespace. -/
def parseVal : Nat → List Char → Option (Json × List Char)
  | 0, _ => none
  | fuel + 1, cs =>
    match skipWs cs with
    | [] => none
    | c :: rest =>
      if c = quoteChar then
        match parseStrBody fuel [] rest with
        | some (s, r) => some (Json.str s, r)
        | none => none
      else if c = lbraceChar then
        match parseMembers fuel rest with
        | some (kvs, r) => some (Json.obj kvs, r)
        | none => none
      else if c = lbrackChar then
        match parseElems fuel rest with
        | some (xs, r) => some (Json.arr xs, r)
        | none => none
      else if c = 't' then
        match rest with
        | 'r' :: 'u' :: 'e' :: r => some (Json.bool true, r)
        | _ => none
      else if c = 'f' then
        match rest with
        | 'a' :: 'l' :: 's' :: 'e' :: r => some (Json.bool false, r)
        | _ => none
      else if c = 'n' then
        match rest with
        | 'u' :: 'l' :: 'l' :: r => some (Json.null, r)
        | _ => none
      else parseNum (c :: rest)

/-- Array elements after the opening bracket. -/
def parseElems : Nat → List Char → Option (List Json × List Char)
  | 0, _ => none
  | fuel + 1, cs =>
    match skipWs cs with
    | c :: rest =>
      if c = rbrackChar then some ([], rest)
      else
        match parseVal fuel (c :: rest) with
        | some (x, r) =>
          match parseElemsRest fuel r with
          | some (xs, r2) => some (x :: xs, r2)
          | none => none
        | none => none
    | [] => none

/-- After one array element: a comma and more elements, or the close. -/
def parseElemsRest : Nat → List Char → Option (List Json × List Char)
  | 0, _ => none
  | fuel + 1, cs =>
    match skipWs cs with
    | c :: rest =>
      if c = rbrackChar then some ([], rest)
      else if c = commaChar then
        match parseVal fuel rest with
        | some (x, r) =>
          match parseElemsRest fuel r with
          | some (xs, r2) => some (x :: xs, r2)
          | none => none
        | none => none
      else none
    | [] => none

/-- Object members after the opening brace. -/
def parseMembers : Nat → List Char → Option (List (String × Json) × List Char)
  | 0, _ => none
  | fuel + 1, cs =>
    match skipWs cs with
    | c :: rest =>
      if c = rbraceChar then some ([], rest)
      else
        match parseMember fuel (c :: rest) with
        | some (kv, r) =>
          match parseMembersRest fuel r with
          | some (kvs, r2) => some (kv :: kvs, r2)
          | none => none
        | none => none
    | [] => none

/-- After one object member: a comma and more members, or the close. -/
def parseMembersRest : Nat → List Char → Option (List (String × Json) × List Char)
  | 0, _ => none
  | fuel + 1, cs =>
    match skipWs cs with
    | c :: rest =>
      if c = rbraceChar then some ([], rest)
      else if c = commaChar then
        match parseMember fuel rest with
        | some (kv, r) =>
          match parseMembersRest fuel r with
          | some (kvs, r2) => some (kv :: kvs, r2)
          | none => none
        | none => none
      else none
    | [] => none

/-- One `"key": value` member, preceded by optional whitespace. -/
def parseMember : Nat → List Char → Option ((String × Json) × List Char)
  | 0, _ => none
  | fuel + 1, cs =>
    match skipWs cs with
    | c :: rest =>
      if c = quoteChar then
        match parseStrBody fuel [] rest with
        | some (k, r) =>
          match skipWs r with
          | c2 :: r2 =>
            if c2 = colonChar then
              match parseVal fuel r2 with
              | some (v, r3) => some ((k, v), r3)
              | none => none
            else none
          | [] => none
        | none => none
      else none
    | [] => none

end

/-- Model of Python's `json.loads`: parse one JSON document; trailing
whitespace only. -/
def jsonParse (s : String) : Option Json :=
  match parseVal (2 * s.data.length + 8) s.data with
  | some (j, rest) => if skipWs rest = [] then some j else none
  | none => none

/-- Python dict lookup on a parsed JSON object (`data[k]`): the last binding
for a duplicate key wins, as in `json.loads`.  Returns `none` when the value
is not an object or the key is absent — in the source either raises
(`TypeError`/`KeyError`) and is caught by the handler's `except`. -/
def Json.lookupKey : Json → String → Option Json
  | Json.obj kvs, k =>
    match kvs.reverse.find? (fun kv => kv.1 = k) with
    | some kv => some kv.2
    | none => none
  | _, _ => none

/-- Python `x[0]` on a parsed JSON value.  Only a nonempty list yields an
element; on a dict `0` is never a key of a parsed JSON object (keys are
strings), and any string produced by `x[0]` on a `str` fails at the next
subscript of the chain, so modelling those as failure is observationally
faithful for the handler. -/
def Json.head0 : Json → Option Json
  | Json.arr (x :: _) => some x
  | _ => none

/-- `data["candidates"][0]["content"]["parts"][0]["text"]`, succeeding only
when the final value is a string (as `json.loads` requires `str` input;
anything else raises and is caught). -/
def extractText (data : Json) : Option String := do
  let cands ← data.lookupKey "candidates"
  let c0 ← cands.head0
  let content ← c0.lookupKey "content"
  let parts ← content.lookupKey "parts"
  let p0 ← parts.head0
  let t ← p0.lookupKey "text"
  match t with
  | Json.str s => some s
  | _ => none

/-- The payload returned when `GEMINI_API_KEY` is missing or empty
(`if not api_key`). -/
def missingKeyPayload : Json :=
  Json.obj
    [ ("message", Json.str "⚠️ Gemini API 키가 설정되지 않았어요. .env 파일을 확인해주세요."),
      ("emotion", Json.str "healing"),
      ("tags", Json.arr [Json.str "error"]) ]

/-- The payload returned by the `except Exception` fallback branch. -/
def fallbackPayload : Json :=
  Json.obj
    [ ("message", Json.str "🌿 서버 연결이 잠시 불안정해요. 잠시 후 다시 시도해주세요."),
      ("emotion", Json.str "healing"),
      ("tags", Json.arr [Json.str "폴백"]) ]

/-- The Gemini endpoint URL constant `GEMINI_URL`. -/
def GEMINI_URL : String :=
  "https://generativelanguage.googleapis.com/v1beta/models/gemini-1.5-pro-latest:generateContent"

/-- Fixed prompt text before `{req.text}` in the f-string. -/
def promptPrefix : String :=
  "\n    당신은 저에너지 사용자를 위한 감정 코치입니다.\n    다음 정보를 참고해 180~280자 이내의 따뜻한 2문장으로 대답하세요.\n    톤은 \"이해 → 한 걸음\", 죄책감 금지.\n    JSON 형태로만 응답하세요.\n\n    입력 문장: "

/-- Fixed prompt text between `{req.text}` and `{req.emotion}`. -/
def promptMid1 : String := "\n    감정 상태: "

/-- Fixed prompt text between `{req.emotion}` and `{req.intent}`. -/
def promptMid2 : String := "\n    의도: "

/-- Fixed prompt text after `{req.intent}` (the example-output block; the
doubled braces of the f-string are literal braces here). -/
def promptSuffix : String :=
  "\n\n    예시 출력:\n    \x7b\n      \"message\": \"🌿 마음이 지쳤을 땐 천천히 숨을 고르세요. 오늘은 자신에게 다정하게 대해주세요.\",\n      \"emotion\": \"healing\",\n      \"tags\": [\"회복\",\"안정\"]\n    \x7d\n    "

/-- The f-string `prompt` built in `plan_endpoint`. -/
def buildPrompt (req : PlanRequest) : String :=
  promptPrefix ++ req.text ++ promptMid1 ++ req.emotion ++ promptMid2 ++ req.intent ++ promptSuffix

/-- The one outbound HTTP call the handler can issue:
`client.post(f"{GEMINI_URL}?key={api_key}", json={"contents": [...]})` inside
`httpx.AsyncClient(timeout=10.0)`. -/
structure OutboundCall where
  method : String
  url : String
  body : Json
  timeoutSeconds : Nat
deriving Repr

/-- The outbound request `plan_endpoint` issues for a given key and
request. -/
def outboundCall (api_key : String) (req : PlanRequest) : OutboundCall :=
  { method := "POST"
    url := GEMINI_URL ++ "?key=" ++ api_key
    body :=
      Json.obj
        [ ("contents",
            Json.arr
              [ Json.obj
                  [ ("parts",
                      Json.arr [Json.obj [("text", Json.str (buildPrompt req))]]) ] ]) ]
    timeoutSeconds := 10 }

/-- Outcome of the outbound call, as seen by the `try` block: either an
exception raised by `httpx` (connection error, timeout, ...) or an HTTP
response with a status code and a body. -/
inductive UpstreamOutcome where
  | exn : UpstreamOutcome
  | response (status : Nat) (body : String) : UpstreamOutcome
deriving Repr, DecidableEq

/-- The `try` block after the POST returns: `res.raise_for_status()` raises
unless the status is 2xx, `res.json()` raises unless the body parses,
extraction of the envelope path raises on a shape mismatch, and
`json.loads(text)` raises unless the inner text parses; every raise lands in
the `except Exception` branch, which returns `fallbackPayload`.  On success
the parsed inner value is returned verbatim. -/
def handleUpstream (outcome : UpstreamOutcome) : Json :=
  match outcome with
  | UpstreamOutcome.exn => fallbackPayload
  | UpstreamOutcome.response status body =>
    if 200 ≤ status ∧ status ≤ 299 then
      match jsonParse body with
      | none => fallbackPayload
      | some data =>
        match extractText data with
        | none => fallbackPayload
        | some text =>
          match jsonParse text with
          | none => fallbackPayload
          | some j => j
    else fallbackPayload

/-- The handler `plan_endpoint`.  `env` is the value of
`os.getenv("GEMINI_API_KEY")` at call time; `outcome` is what the network
returns if a call is issued.  The result pairs the JSON payload returned to
the client with the outbound call issued, if any (`none` means no network
call was attempted). -/
def plan_endpoint (env : Option String) (outcome : UpstreamOutcome)
    (req : PlanRequest) : Json × Option OutboundCall :=
  match env with
  | none => (missingKeyPayload, none)
  | some api_key =>
    if api_key = "" then (missingKeyPayload, none)
    else (handleUpstream outcome, some (outboundCall api_key req))

/-- The root endpoint: `return RedirectResponse(url="/public/index.html")`. -/
structure RedirectResponse where
  url : String
deriving Repr, DecidableEq

/-- `GET /` handler `root`. -/
def root : RedirectResponse := { url := "/public/index.html" }

set_option maxRecDepth 100000

/-- Projection used to compare payloads: the string under a `"message"`
key. -/
def msgOf (j : Json) : Option String :=
  match j.lookupKey "message" with
  | some (Json.str s) => some s
  | _ => none

/-- Projection on an optional JSON value: the first string element of an
array value. -/
def firstTagOfOpt : Option Json → Option String
  | some (Json.arr (Json.str s :: _)) => some s
  | _ => none

/-- First string element of a payload's `"tags"` array. -/
def firstTagOf (j : Json) : Option String :=
  firstTagOfOpt (j.lookupKey "tags")

/-- A concrete request used by the concrete-input theorems. -/
def demoReq : PlanRequest := { text := "hi", emotion := "low", intent := "habit" }

/-- The fenced generated text from the specification's example:
three backticks, `json`, a newline, the JSON object, a newline, three
backticks. -/
def fencedInnerText : String :=
  "```json\n\x7b\"message\":\"m2\",\"emotion\":\"healing\",\"tags\":[]\x7d\n```"

/-- A 2xx upstream body whose envelope carries `fencedInnerText` as the first
candidate's first part text. -/
def fencedBody : String :=
  "\x7b\"candidates\":[\x7b\"content\":\x7b\"parts\":[\x7b\"text\":\"```json\\n\x7b\\\"message\\\":\\\"m2\\\",\\\"emotion\\\":\\\"healing\\\",\\\"tags\\\":[]\x7d\\n```\"\x7d]\x7d\x7d]\x7d"

/-- The object the specification claims is returned for `fencedBody`. -/
def claimedC1Payload : Json :=
  Json.obj
    [ ("message", Json.str "m2"),
      ("emotion", Json.str "healing"),
      ("tags", Json.arr []) ]

/-- A 2xx upstream body whose inner text is the JSON array `[1,2]` — a value
that parses but is not an object. -/
def listBody : String :=
  "\x7b\"candidates\":[\x7b\"content\":\x7b\"parts\":[\x7b\"text\":\"[1,2]\"\x7d]\x7d\x7d]\x7d"

/-- The parsed envelope of `listBody`. -/
def listEnvelope : Json :=
  Json.obj
    [ ("candidates",
        Json.arr
          [ Json.obj
              [ ("content",
                  Json.obj
                    [ ("parts",
                        Json.arr [Json.obj [("text", Json.str "[1,2]")]]) ]) ] ]) ]

/-- With a nonempty key the handler runs the try block and issues exactly one
outbound call. -/
theorem plan_endpoint_some (k : String) (hk : k ≠ "") (outcome : UpstreamOutcome)
    (req : PlanRequest) :
    plan_endpoint (some k) outcome req =
      (handleUpstream outcome, some (outboundCall k req)) := by
  simp [plan_endpoint, hk]

/-- An exception in the try block yields the fallback payload. -/
theorem handleUpstream_exn : handleUpstream UpstreamOutcome.exn = fallbackPayload := rfl

/-- A non-2xx status yields the fallback payload. -/
theorem handleUpstream_bad_status (status : Nat) (body : String)
    (h : ¬(200 ≤ status ∧ status ≤ 299)) :
    handleUpstream (UpstreamOutcome.response status body) = fallbackPayload := by
  simp [handleUpstream, h]

/-- An unparsable 2xx body yields the fallback payload. -/
theorem handleUpstream_bad_body (status : Nat) (body : String)
    (hb : jsonParse body = none) :
    handleUpstream (UpstreamOutcome.response status body) = fallbackPayload := by
  simp only [handleUpstream, hb]
  split <;> rfl

/-- A 2xx body whose envelope lacks the extraction path yields the fallback
payload. -/
theorem handleUpstream_bad_envelope (status : Nat) (body : String) (data : Json)
    (hb : jsonParse body = some data) (he : extractText data = none) :
    handleUpstream (UpstreamOutcome.response status body) = fallbackPayload := by
  simp only [handleUpstream, hb, he]
  split <;> rfl

/-- A 2xx body whose inner text does not parse yields the fallback
payload. -/
theorem handleUpstream_bad_inner (status : Nat) (body : String) (data : Json)
    (text : String) (hb : jsonParse body = some data)
    (he : extractText data = some text) (ht : jsonParse text = none) :
    handleUpstream (UpstreamOutcome.response status body) = fallbackPayload := by
  simp only [handleUpstream, hb, he, ht]
  split <;> rfl

/-- A fully successful extraction returns the parsed inner value
verbatim. -/
theorem handleUpstream_success (status : Nat) (body : String) (data : Json)
    (text : String) (j : Json) (h1 : 200 ≤ status) (h2 : status ≤ 299)
    (hb : jsonParse body = some data) (he : extractText data = some text)
    (ht : jsonParse text = some j) :
    handleUpstream (UpstreamOutcome.response status body) = j := by
  simp only [handleUpstream, hb, he, ht]
  rw [if_pos (And.intro h1 h2)]

/-- Claim C1, counterexample: with a configured key and an upstream success
whose generated text is the fenced block from the claim, the envelope
extraction does yield the fenced text, yet the handler returns the fallback
payload, not the parsed object the claim promises — no fence stripping
happens before `json.loads`. -/
theorem C1_counterexample :
    (jsonParse fencedBody).bind extractText = some fencedInnerText ∧
    (plan_endpoint (some "k") (UpstreamOutcome.response 200 fencedBody) demoReq).1 =
      fallbackPayload ∧
    (plan_endpoint (some "k") (UpstreamOutcome.response 200 fencedBody) demoReq).1 ≠
      claimedC1Payload :=
  ⟨rfl, rfl, fun h => absurd (congrArg msgOf h) (by decide)⟩

/-- Claim C1, amended: if the configured key is present and the upstream call
succeeds with the generated text wrapped in a fenced code block labeled as
JSON, `plan_endpoint` does not strip the fence markers; `json.loads` fails on
the fenced text and the fixed fallback payload is returned instead of the
parsed object. -/
theorem C1_fenced_fallback (k : String) (req : PlanRequest) (hk : k ≠ "") :
    jsonParse fencedInnerText = none ∧
    (plan_endpoint (some k) (UpstreamOutcome.response 200 fencedBody) req).1 =
      fallbackPayload := by
  refine ⟨rfl, ?_⟩
  rw [plan_endpoint_some k hk]
  rfl

/-- Witness for C1_fenced_fallback at a concrete key and request. -/
theorem C1_fenced_fallback_witness :
    jsonParse fencedInnerText = none ∧
    (plan_endpoint (some "k") (UpstreamOutcome.response 200 fencedBody) demoReq).1 =
      fallbackPayload :=
  C1_fenced_fallback "k" demoReq (by decide)

/-- Claim C2, counterexample: the fallback payload's `tags` value is
`["폴백"]`, not `["fallback"]` — at a concrete timed-out call with a
configured key the claimed `tags == ["fallback"]` is false. -/
theorem C2_counterexample :
    (plan_endpoint (some "k") UpstreamOutcome.exn demoReq).1 = fallbackPayload ∧
    (plan_endpoint (some "k") UpstreamOutcome.exn demoReq).1.lookupKey "tags" ≠
      some (Json.arr [Json.str "fallback"]) :=
  ⟨rfl, fun h => absurd (congrArg firstTagOfOpt h) (by decide)⟩

/-- Claim C2, amended: for every request with a configured (nonempty) API
key, if the outbound call raises (timeout/network error), returns a non-2xx
status, returns a body that does not parse as JSON, returns an envelope
lacking the candidates/content/parts/text path, or returns an inner text
that does not parse as JSON, `plan_endpoint` returns the fixed fallback
payload whose `tags` field equals `["폴백"]` together with the fixed fallback
message; the handler is a total function, so no exception escapes to the
caller. -/
theorem C2_fallback (k : String) (req : PlanRequest) (outcome : UpstreamOutcome)
    (hk : k ≠ "")
    (hfail :
      outcome = UpstreamOutcome.exn ∨
      (∃ status body, outcome = UpstreamOutcome.response status body ∧
        ¬(200 ≤ status ∧ status ≤ 299)) ∨
      (∃ status body, outcome = UpstreamOutcome.response status body ∧
        jsonParse body = none) ∨
      (∃ status body data, outcome = UpstreamOutcome.response status body ∧
        jsonParse body = some data ∧ extractText data = none) ∨
      (∃ status body data text, outcome = UpstreamOutcome.response status body ∧
        jsonParse body = some data ∧ extractText data = some text ∧
        jsonParse text = none)) :
    (plan_endpoint (some k) outcome req).1 = fallbackPayload ∧
    (plan_endpoint (some k) outcome req).1.lookupKey "tags" =
      some (Json.arr [Json.str "폴백"]) ∧
    (plan_endpoint (some k) outcome req).1.lookupKey "message" =
      some (Json.str "🌿 서버 연결이 잠시 불안정해요. 잠시 후 다시 시도해주세요.") := by
  have hfb : (plan_endpoint (some k) outcome req).1 = fallbackPayload := by
    rw [plan_endpoint_some k hk]
    rcases hfail with h | ⟨st, bd, h, hs⟩ | ⟨st, bd, h, hb⟩ |
      ⟨st, bd, d, h, hb, he⟩ | ⟨st, bd, d, t, h, hb, he, ht⟩
    · rw [h]; exact handleUpstream_exn
    · rw [h]; exact handleUpstream_bad_status st bd hs
    · rw [h]; exact handleUpstream_bad_body st bd hb
    · rw [h]; exact handleUpstream_bad_envelope st bd d hb he
    · rw [h]; exact handleUpstream_bad_inner st bd d t hb he ht
  rw [hfb]
  exact ⟨rfl, rfl, rfl⟩

/-- Witness for C2_fallback at a concrete key, request and timed-out
outcome. -/
theorem C2_fallback_witness :
    (plan_endpoint (some "k") UpstreamOutcome.exn demoReq).1 = fallbackPayload ∧
    (plan_endpoint (some "k") UpstreamOutcome.exn demoReq).1.lookupKey "tags" =
      some (Json.arr [Json.str "폴백"]) ∧
    (plan_endpoint (some "k") UpstreamOutcome.exn demoReq).1.lookupKey "message" =
      some (Json.str "🌿 서버 연결이 잠시 불안정해요. 잠시 후 다시 시도해주세요.") :=
  C2_fallback "k" demoReq UpstreamOutcome.exn (by decide) (Or.inl rfl)

/-- Claim C3: with no API key configured, `plan_endpoint` returns the
missing-key payload (tags `["error"]`, emotion `"healing"`) and issues no
outbound call; the condition is detected before any network activity and the
payload is distinguishable from the downstream-failure fallback. -/
theorem C3_missing_key (outcome : UpstreamOutcome) (req : PlanRequest) :
    plan_endpoint none outcome req = (missingKeyPayload, none) ∧
    missingKeyPayload.lookupKey "tags" = some (Json.arr [Json.str "error"]) ∧
    missingKeyPayload.lookupKey "emotion" = some (Json.str "healing") ∧
    firstTagOf missingKeyPayload ≠ firstTagOf fallbackPayload :=
  ⟨rfl, rfl, rfl, by decide⟩

/-- Claim C4: the handler is total — for every environment, upstream outcome
and request it returns a payload, which is the missing-key payload, the
fallback payload, or the verbatim parsed inner JSON of a 2xx upstream
response; nothing else (in particular no escaping exception) is possible. -/
theorem C4_never_fails (env : Option String) (outcome : UpstreamOutcome)
    (req : PlanRequest) :
    (plan_endpoint env outcome req).1 = missingKeyPayload ∨
    (plan_endpoint env outcome req).1 = fallbackPayload ∨
    ∃ status body data text,
      outcome = UpstreamOutcome.response status body ∧
      200 ≤ status ∧ status ≤ 299 ∧
      jsonParse body = some data ∧ extractText data = some text ∧
      jsonParse text = some ((plan_endpoint env outcome req).1) := by
  match env with
  | none => exact Or.inl rfl
  | some k =>
    by_cases hk : k = ""
    · subst hk; exact Or.inl rfl
    · rw [plan_endpoint_some k hk]
      match outcome with
      | UpstreamOutcome.exn => exact Or.inr (Or.inl handleUpstream_exn)
      | UpstreamOutcome.response status body =>
        by_cases hs : 200 ≤ status ∧ status ≤ 299
        · match hb : jsonParse body with
          | none => exact Or.inr (Or.inl (handleUpstream_bad_body status body hb))
          | some data =>
            match he : extractText data with
            | none =>
              exact Or.inr (Or.inl (handleUpstream_bad_envelope status body data hb he))
            | some text =>
              match ht : jsonParse text with
              | none =>
                exact Or.inr (Or.inl (handleUpstream_bad_inner status body data text hb he ht))
              | some j =>
                refine Or.inr (Or.inr ⟨status, body, data, text, rfl, hs.1, hs.2, hb, he, ?_⟩)
                rw [handleUpstream_success status body data text j hs.1 hs.2 hb he ht]
                exact ht
        · exact Or.inr (Or.inl (handleUpstream_bad_status status body hs))

/-- Claim C5: for a 2xx upstream response whose body parses and has the
expected envelope, the handler parses the first candidate's first part text
as JSON and returns the parsed value verbatim — whatever JSON value it is,
with no schema validation. -/
theorem C5_success (k : String) (req : PlanRequest) (status : Nat) (body : String)
    (data : Json) (text : String) (j : Json) (hk : k ≠ "")
    (h1 : 200 ≤ status) (h2 : status ≤ 299)
    (hb : jsonParse body = some data) (he : extractText data = some text)
    (ht : jsonParse text = some j) :
    plan_endpoint (some k) (UpstreamOutcome.response status body) req =
      (j, some (outboundCall k req)) := by
  rw [plan_endpoint_some k hk,
    handleUpstream_success status body data text j h1 h2 hb he ht]

/-- Witness for C5_success: the inner text `[1,2]` parses to a JSON array —
not an object, without message/emotion/tags — and is returned verbatim. -/
theorem C5_success_witness :
    plan_endpoint (some "k") (UpstreamOutcome.response 200 listBody) demoReq =
      (Json.arr [Json.num 1, Json.num 2], some (outboundCall "k" demoReq)) :=
  C5_success "k" demoReq 200 listBody listEnvelope "[1,2]"
    (Json.arr [Json.num 1, Json.num 2]) (by decide) (by decide) (by decide) rfl rfl rfl

/-- Claim C6, counterexample: the key is read with `os.getenv` inside the
handler, so the result depends on the environment at call time — with the
key unset the handler returns the error payload and no call is made, while
with a key set it runs the try block; the two runs of the same request
differ. -/
theorem C6_counterexample :
    plan_endpoint none UpstreamOutcome.exn demoReq ≠
      plan_endpoint (some "k") UpstreamOutcome.exn demoReq :=
  fun h => absurd (congrArg (fun r => firstTagOf r.1) h) (by decide)

/-- Claim C6, amended: `GEMINI_API_KEY` is read from the process environment
at each call (`os.getenv` inside the handler), not only at startup; the
handler's result depends on the environment's value at call time, so
setting, changing or unsetting the variable between two calls with the same
request can change the behavior. -/
theorem C6_key_read_at_call_time :
    ∃ (env1 env2 : Option String) (outcome : UpstreamOutcome) (req : PlanRequest),
      plan_endpoint env1 outcome req ≠ plan_endpoint env2 outcome req :=
  ⟨none, some "k", UpstreamOutcome.exn, demoReq,
    fun h => absurd (congrArg (fun r => firstTagOf r.1) h) (by decide)⟩

/-- Claim C7: whenever the handler reaches the outbound call (the key is
configured and nonempty), the call carries a timeout of exactly 10 seconds,
whatever the request's text, emotion and intent are. -/
theorem C7_timeout (k : String) (outcome : UpstreamOutcome) (req : PlanRequest)
    (hk : k ≠ "") :
    (plan_endpoint (some k) outcome req).2 = some (outboundCall k req) ∧
    (outboundCall k req).timeoutSeconds = 10 := by
  rw [plan_endpoint_some k hk]
  exact ⟨rfl, rfl⟩

/-- Witness for C7_timeout at a concrete key, outcome and request. -/
theorem C7_timeout_witness :
    (plan_endpoint (some "k") UpstreamOutcome.exn demoReq).2 =
      some (outboundCall "k" demoReq) ∧
    (outboundCall "k" demoReq).timeoutSeconds = 10 :=
  C7_timeout "k" UpstreamOutcome.exn demoReq (by decide)

/-- Claim C8: whenever the handler reaches the outbound call, it issues a
POST to the generation endpoint with the API key in the query string and a
JSON body that is exactly `{contents: [{parts: [{text: prompt}]}]}` with the
prompt as the sole content part, the prompt embedding the request's text,
emotion and intent between the fixed instruction pieces. -/
theorem C8_request_shape (k : String) (outcome : UpstreamOutcome)
    (req : PlanRequest) (hk : k ≠ "") :
    (plan_endpoint (some k) outcome req).2 = some (outboundCall k req) ∧
    (outboundCall k req).method = "POST" ∧
    (outboundCall k req).url = GEMINI_URL ++ "?key=" ++ k ∧
    (outboundCall k req).body =
      Json.obj
        [ ("contents",
            Json.arr
              [ Json.obj
                  [ ("parts",
                      Json.arr
                        [Json.obj [("text", Json.str (buildPrompt req))]]) ] ]) ] ∧
    buildPrompt req =
      promptPrefix ++ req.text ++ promptMid1 ++ req.emotion ++ promptMid2 ++
        req.intent ++ promptSuffix := by
  rw [plan_endpoint_some k hk]
  exact ⟨rfl, rfl, rfl, rfl, rfl⟩

/-- Witness for C8_request_shape at a concrete key, outcome and request. -/
theorem C8_request_shape_witness :
    (plan_endpoint (some "k") UpstreamOutcome.exn demoReq).2 =
      some (outboundCall "k" demoReq) ∧
    (outboundCall "k" demoReq).method = "POST" ∧
    (outboundCall "k" demoReq).url = GEMINI_URL ++ "?key=" ++ "k" ∧
    (outboundCall "k" demoReq).body =
      Json.obj
        [ ("contents",
            Json.arr
              [ Json.obj
                  [ ("parts",
                      Json.arr
                        [Json.obj [("text", Json.str (buildPrompt demoReq))]]) ] ]) ] ∧
    buildPrompt demoReq =
      promptPrefix ++ demoReq.text ++ promptMid1 ++ demoReq.emotion ++ promptMid2 ++
        demoReq.intent ++ promptSuffix :=
  C8_request_shape "k" UpstreamOutcome.exn demoReq (by decide)

/-- Claim C9: the `GET /` handler returns a redirect to the static front-end
entry document `/public/index.html`. -/
theorem C9_root_redirect : root = RedirectResponse.mk "/public/index.html" := rfl

/-- Claim C10: an empty `GEMINI_API_KEY` is treated exactly like an absent
one (`if not api_key` tests falsiness): the missing-key payload is returned
and no outbound call is made, identically to the unset case. -/
theorem C10_empty_key (outcome : UpstreamOutcome) (req : PlanRequest) :
    plan_endpoint (some "") outcome req = (missingKeyPayload, none) ∧
    plan_endpoint (some "") outcome req = plan_endpoint none outcome req :=
  ⟨rfl, rfl⟩
